import Mathlib

/-!
# Verification of the sdk-rfi backtesting cutoff mechanism

Shallow embedding of the cutoff logic of the `sdk_rfi` Python SDK:
the cutoff resolver (`_utils._resolve_cutoff_date`), the per-resource
temporal filters (`_filter_questions_by_cutoff`,
`_filter_prediction_sets_by_cutoff`, `_filter_comments_by_cutoff`),
and the `list` / `get` operations of the `Questions`, `PredictionSets`
and `Comments` resources (outbound query construction, response-envelope
normalization, client-side filtering, result packaging).

Entity records carry only the fields the cutoff logic inspects
(`id`, `published_at`, `created_at`); the remaining data-transfer fields
of the pydantic models never influence the logic under study.
The transport is modelled as a value of type `RawResponse` handed to the
`list` embedding; pydantic `model_validate` on an individual record is
the identity here (records arrive already typed), which is exact for
every property studied since decoding is applied pointwise to the same
records on every control path.
-/

/-- A Python naive `datetime` value: wall-clock fields, no timezone.
Comparison of Python datetimes is lexicographic on
(year, month, day, hour, minute, second, microsecond). -/
structure NaiveDT where
  year : Nat
  month : Nat
  day : Nat
  hour : Nat
  minute : Nat
  second : Nat
  microsecond : Nat
deriving DecidableEq, Repr

/-- Python `datetime.__le__` on naive datetimes: lexicographic field order. -/
def NaiveDT.le (a b : NaiveDT) : Bool :=
  if a.year ≠ b.year then a.year < b.year
  else if a.month ≠ b.month then a.month < b.month
  else if a.day ≠ b.day then a.day < b.day
  else if a.hour ≠ b.hour then a.hour < b.hour
  else if a.minute ≠ b.minute then a.minute < b.minute
  else if a.second ≠ b.second then a.second < b.second
  else a.microsecond ≤ b.microsecond

/-- A Python `datetime` as stored on a pydantic-decoded entity: wall-clock
fields plus an optional timezone offset (pydantic parses `...Z` / `+HH:MM`
suffixes into `tzinfo`). -/
structure PyDateTime where
  naive : NaiveDT
  tzOffsetMinutes : Option Int
deriving DecidableEq, Repr

/-- `dt.replace(tzinfo=None)`: drop the offset, keep the wall-clock fields. -/
def stripTzOffset (t : PyDateTime) : NaiveDT := t.naive

/-- `dt.replace(hour=23, minute=59, second=59)` as applied to a
`strptime`-parsed date (microsecond stays 0). -/
def endOfDay (d : NaiveDT) : NaiveDT :=
  { d with hour := 23, minute := 59, second := 59 }

/-- Class of the Python exception escaping the filter helpers. Messages are
abstracted; only the exception class matters to the spec claims. -/
inductive PyExn where
  /-- Builtin `ValueError`, as raised by `datetime.strptime` on bad input. -/
  | valueError : PyExn
  /-- A pydantic-style `ValidationError` (a distinct class; the SDK's filter
  helpers never raise it). -/
  | validationError : PyExn
deriving DecidableEq, Repr

/-- `datetime.strptime(s, "%Y-%m-%d")`, success domain. CPython compiles the
format to the anchored regex `(\d\d\d\d)-(1[0-2]|0[1-9]|[1-9])-(3[01]|[12]\d|0[1-9]|[1-9])`
with no residue allowed, then builds `datetime(year, month, day)`, which
additionally requires `1 ≤ year` and `day ≤` the length of the month.
Returns `none` exactly when Python raises `ValueError`. -/
def parseYear4 : List Char → Option (Nat × List Char)
  | a :: b :: c :: d :: rest =>
    if a.isDigit && b.isDigit && c.isDigit && d.isDigit then
      some ((a.toNat - 48) * 1000 + (b.toNat - 48) * 100 + (c.toNat - 48) * 10 + (d.toNat - 48), rest)
    else none
  | _ => none

/-- The month alternation `1[0-2]|0[1-9]|[1-9]` of CPython's `%m`. -/
def parseMonth2 : List Char → Option (Nat × List Char)
  | a :: b :: rest =>
    if a = '1' && ('0' ≤ b && b ≤ '2') then some (10 + (b.toNat - 48), rest)
    else if a = '0' && ('1' ≤ b && b ≤ '9') then some (b.toNat - 48, rest)
    else if '1' ≤ a && a ≤ '9' then some (a.toNat - 48, b :: rest)
    else none
  | [a] => if '1' ≤ a && a ≤ '9' then some (a.toNat - 48, []) else none
  | [] => none

/-- The day alternation `3[01]|[12]\d|0[1-9]|[1-9]` of CPython's `%d`. -/
def parseDay2 : List Char → Option (Nat × List Char)
  | a :: b :: rest =>
    if a = '3' && ('0' ≤ b && b ≤ '1') then some (30 + (b.toNat - 48), rest)
    else if (a = '1' || a = '2') && b.isDigit then some ((a.toNat - 48) * 10 + (b.toNat - 48), rest)
    else if a = '0' && ('1' ≤ b && b ≤ '9') then some (b.toNat - 48, rest)
    else if '1' ≤ a && a ≤ '9' then some (a.toNat - 48, b :: rest)
    else none
  | [a] => if '1' ≤ a && a ≤ '9' then some (a.toNat - 48, []) else none
  | [] => none

/-- Gregorian month length, as validated by `datetime.__new__`. -/
def daysInMonth (year month : Nat) : Nat :=
  if month = 2 then
    if year % 4 = 0 && (year % 100 ≠ 0 || year % 400 = 0) then 29 else 28
  else if month = 4 || month = 6 || month = 9 || month = 11 then 30
  else 31

/-- `datetime.strptime(s, "%Y-%m-%d")`: `some` parsed date (midnight) on
success, `none` where Python raises `ValueError`. -/
def strptimeDate (s : String) : Option NaiveDT :=
  match parseYear4 s.data with
  | none => none
  | some (y, rest1) =>
    match rest1 with
    | '-' :: rest2 =>
      match parseMonth2 rest2 with
      | none => none
      | some (m, rest3) =>
        match rest3 with
        | '-' :: rest4 =>
          match parseDay2 rest4 with
          | none => none
          | some (d, rest5) =>
            if rest5 = [] && 1 ≤ y && d ≤ daysInMonth y m then
              some ⟨y, m, d, 0, 0, 0, 0⟩
            else none
        | _ => none
    | _ => none

/-- Python string truthiness of an optional string (`if x:`): present and
non-empty. -/
def optStrTruthy : Option String → Bool
  | some s => !s.isEmpty
  | none => false

/-- `sdk_rfi._utils._resolve_cutoff_date`. First input models
`os.environ.get("CUTOFF_DATE")`, second the `cutoff_date` parameter.
```
env_cutoff = os.environ.get("CUTOFF_DATE")
if env_cutoff: return env_cutoff
if cutoff_date: return cutoff_date
return None
``` -/
def _resolve_cutoff_date (env_cutoff : Option String) (cutoff_date : Option String) : Option String :=
  if optStrTruthy env_cutoff then env_cutoff
  else if optStrTruthy cutoff_date then cutoff_date
  else none

/-- `sdk_rfi.types.questions.Question`, restricted to the fields the cutoff
logic reads (the pydantic model's other fields are inert plumbing). -/
structure Question where
  id : Int
  name : String
  created_at : Option PyDateTime
  published_at : Option PyDateTime
deriving DecidableEq, Repr

/-- `sdk_rfi.types.prediction_sets.PredictionSet`, restricted likewise. -/
structure PredictionSet where
  id : Int
  created_at : Option PyDateTime
deriving DecidableEq, Repr

/-- `sdk_rfi.types.comments.Comment`, restricted likewise. -/
structure Comment where
  id : Int
  created_at : Option PyDateTime
deriving DecidableEq, Repr

/-- Loop body predicate of `questions._filter_questions_by_cutoff`: the
entity is appended iff this holds. `published_at` is used when present,
else `created_at`, else the question is kept. The entity timestamps are
already `datetime` objects after pydantic decoding, so the
`datetime.fromisoformat` fallback branches of the source are dead. -/
def questionPasses (cutoff_dt : NaiveDT) (q : Question) : Bool :=
  match q.published_at with
  | some pub_dt => NaiveDT.le (stripTzOffset pub_dt) (endOfDay cutoff_dt)
  | none =>
    match q.created_at with
    | some created_dt => NaiveDT.le (stripTzOffset created_dt) (endOfDay cutoff_dt)
    | none => true

/-- `sdk_rfi.resources.questions._filter_questions_by_cutoff`.
`cutoff_dt = datetime.strptime(cutoff_date, "%Y-%m-%d")` (raising
`ValueError` on malformed input), then an append loop keeping the questions
whose qualifying timestamp, stripped of its offset, is
`≤ cutoff_dt.replace(hour=23, minute=59, second=59)`. -/
def _filter_questions_by_cutoff (questions : List Question) (cutoff_date : String) :
    Except PyExn (List Question) :=
  match strptimeDate cutoff_date with
  | none => .error .valueError
  | some cutoff_dt => .ok (questions.filter (questionPasses cutoff_dt))

/-- Loop body predicate of `_filter_prediction_sets_by_cutoff`:
`created_at` when present, else keep. -/
def predictionSetPasses (cutoff_dt : NaiveDT) (ps : PredictionSet) : Bool :=
  match ps.created_at with
  | some created_dt => NaiveDT.le (stripTzOffset created_dt) cutoff_dt
  | none => true

/-- `sdk_rfi.resources.prediction_sets._filter_prediction_sets_by_cutoff`.
Here the source applies `.replace(hour=23, minute=59, second=59)` directly
to the `strptime` result before the loop. -/
def _filter_prediction_sets_by_cutoff (prediction_sets : List PredictionSet) (cutoff_date : String) :
    Except PyExn (List PredictionSet) :=
  match strptimeDate cutoff_date with
  | none => .error .valueError
  | some parsed => .ok (prediction_sets.filter (predictionSetPasses (endOfDay parsed)))

/-- Loop body predicate of `_filter_comments_by_cutoff`:
`created_at` when present, else keep. -/
def commentPasses (cutoff_dt : NaiveDT) (c : Comment) : Bool :=
  match c.created_at with
  | some created_dt => NaiveDT.le (stripTzOffset created_dt) cutoff_dt
  | none => true

/-- `sdk_rfi.resources.comments._filter_comments_by_cutoff`, same shape as
the prediction-set filter. -/
def _filter_comments_by_cutoff (comments : List Comment) (cutoff_date : String) :
    Except PyExn (List Comment) :=
  match strptimeDate cutoff_date with
  | none => .error .valueError
  | some parsed => .ok (comments.filter (commentPasses (endOfDay parsed)))

/-- A scalar query-parameter value, as placed in the `params` dict. -/
inductive ParamValue where
  | str (s : String)
  | int (n : Int)
  | bool (b : Bool)
deriving DecidableEq, Repr

/-- Outbound query params: insertion-ordered key/value pairs, exactly as the
source populates the `params` dict (each key written at most once). -/
abbrev Params := List (String × ParamValue)

/-- `params.get(k)` / membership: first value bound to `k`, if any. -/
def paramsLookup (k : String) : Params → Option ParamValue
  | [] => none
  | (k2, v) :: rest => if k2 = k then some v else paramsLookup k rest

/-- A JSON value appearing under a key of an object-shaped response body. -/
inductive DVal (α : Type) where
  /-- a JSON array of raw records -/
  | arr (xs : List α)
  | bool (b : Bool)
  | str (s : String)
  | int (n : Int)
  | null
deriving DecidableEq, Repr

/-- Python truthiness of a `dict.get` result (`None` for a missing key). -/
def dvalTruthy {α : Type} : Option (DVal α) → Bool
  | some (.arr xs) => !xs.isEmpty
  | some (.bool b) => b
  | some (.str s) => !s.isEmpty
  | some (.int n) => n ≠ 0
  | some .null => false
  | none => false

/-- `dict.get`: first binding of the key (dict keys are unique). -/
def dictGet {α : Type} (fields : List (String × DVal α)) (k : String) : Option (DVal α) :=
  match fields with
  | [] => none
  | (k2, v) :: rest => if k2 = k then some v else dictGet rest k

/-- The decoded JSON body returned by the transport: a bare array of records,
an object, or anything else (the source treats the last case as empty). -/
inductive RawResponse (α : Type) where
  | list (xs : List α)
  | dict (fields : List (String × DVal α))
  | other
deriving DecidableEq, Repr

/-- `data.get(k1, data.get(k2, data.get(k3, [])))` followed by the
`isinstance(items, list)` guard: the raw record sequence extracted from an
object-shaped body. -/
def extractDictItems {α : Type} (fields : List (String × DVal α)) (k1 k2 k3 : String) : List α :=
  let items : DVal α :=
    match dictGet fields k1 with
    | some v => v
    | none =>
      match dictGet fields k2 with
      | some v => v
      | none =>
        match dictGet fields k3 with
        | some v => v
        | none => .arr []
  match items with
  | .arr xs => xs
  | _ => []

/-- Envelope normalization shared by the three `list` bodies: bare array →
its records; object → key-chain extraction; anything else → no records. -/
def extractRecords {α : Type} (data : RawResponse α) (k1 k2 k3 : String) : List α :=
  match data with
  | .list xs => xs
  | .dict fields => extractDictItems fields k1 k2 k3
  | .other => []

/-- The `has_more` heuristic shared by the three `list` bodies: bare array →
pre-filter record count at least the default page size 20; object →
`bool(data.get("next") or data.get("has_more"))`; anything else → `False`. -/
def responseHasMore {α : Type} (data : RawResponse α) (decodedLen : Nat) : Bool :=
  match data with
  | .list _ => decide (decodedLen ≥ 20)
  | .dict fields => dvalTruthy (dictGet fields "next") || dvalTruthy (dictGet fields "has_more")
  | .other => false

/-- `page or 1`: Python integer truthiness, so an explicit `page=0` also
yields 1. -/
def pageOr1 : Option Int → Int
  | some p => if p = 0 then 1 else p
  | none => 1

/-- Keyword arguments of `Questions.list`; `none` = argument omitted.
`cutoff_date := none` models omitting `cutoff_date`, in which case Python
substitutes the default evaluated once at module import
(`datetime.now().strftime("%Y-%m-%d")`, the `loadDate` below). -/
structure QuestionsListArgs where
  status : Option String := none
  tags : Option String := none
  challenges : Option String := none
  sort : Option String := none
  filter : Option String := none
  ids : Option String := none
  page : Option Int := none
  created_before : Option String := none
  created_after : Option String := none
  updated_before : Option String := none
  updated_after : Option String := none
  include_tag_ids : Option Bool := none
deriving Repr

/-- `sdk_rfi.types.questions.QuestionList`. -/
structure QuestionList where
  questions : List Question
  page : Int
  has_more : Bool
deriving DecidableEq, Repr

/-- The value Python binds to `Questions.list`'s `cutoff_date` parameter:
the caller's argument when supplied, else the default — a string computed
by `datetime.now().strftime("%Y-%m-%d")` once, when the `def` statement is
executed at module import (`loadDate`), not at each call. `callDate` is the
current date when the call is made; it is unused precisely because Python
default parameter values are evaluated at definition time. -/
def questionsListCutoffBound (loadDate : String) (callDate : String) (cutoff_date : Option String) : String :=
  cutoff_date.getD loadDate

/-- The outbound `params` dict built by `Questions.list`, in source order.
Note the unconditional `else` branch: when the caller passes no
`created_before`, the code always sends
`created_before = f"{cutoff_date}T23:59:59"` — it never reads the
`CUTOFF_DATE` environment override and never omits the bound. -/
def questionsListParams (loadDate callDate : String) (a : QuestionsListArgs)
    (cutoff_date : Option String) : Params :=
  let cutoff := questionsListCutoffBound loadDate callDate cutoff_date
  (match a.status with | some v => [("status", ParamValue.str v)] | none => []) ++
  (match a.tags with | some v => [("tags", ParamValue.str v)] | none => []) ++
  (match a.challenges with | some v => [("challenges", ParamValue.str v)] | none => []) ++
  (match a.sort with | some v => [("sort", ParamValue.str v)] | none => []) ++
  (match a.filter with | some v => [("filter", ParamValue.str v)] | none => []) ++
  (match a.ids with | some v => [("ids", ParamValue.str v)] | none => []) ++
  (match a.page with | some v => [("page", ParamValue.int v)] | none => []) ++
  (match a.created_before with
   | some v => [("created_before", ParamValue.str v)]
   | none => [("created_before", ParamValue.str (cutoff ++ "T23:59:59"))]) ++
  (match a.created_after with | some v => [("created_after", ParamValue.str v)] | none => []) ++
  (match a.updated_before with | some v => [("updated_before", ParamValue.str v)] | none => []) ++
  (match a.updated_after with | some v => [("updated_after", ParamValue.str v)] | none => []) ++
  (match a.include_tag_ids with | some v => [("include_tag_ids", ParamValue.bool v)] | none => [])

/-- `Questions.list` after the transport returned `data`: envelope
normalization, `has_more`, unconditional client-side filtering with the
bound `cutoff_date`, and packaging. A `ValueError` from the filter's
`strptime` propagates. -/
def questionsListRun (loadDate callDate : String) (a : QuestionsListArgs)
    (cutoff_date : Option String) (data : RawResponse Question) :
    Except PyExn QuestionList :=
  let cutoff := questionsListCutoffBound loadDate callDate cutoff_date
  let questions := extractRecords data "questions" "results" "data"
  let has_more := responseHasMore data questions.length
  match _filter_questions_by_cutoff questions cutoff with
  | .error e => .error e
  | .ok filtered => .ok ⟨filtered, pageOr1 a.page, has_more⟩

/-- The value Python binds to `Questions.get`'s `cutoff_date` parameter,
same definition-time default as `Questions.list`. -/
def questionsGetCutoffBound (loadDate : String) (callDate : String) (cutoff_date : Option String) : String :=
  cutoff_date.getD loadDate

/-- `Questions.get` after the transport returned the record: the source is
`question = Question.model_validate(data); return question` — the bound
`cutoff_date` is never consulted, the decoded question is returned as-is. -/
def questionsGet (loadDate callDate : String) (cutoff_date : Option String) (data : Question) : Question :=
  data

/-- Keyword arguments of `Comments.list`; `none` = argument omitted. -/
structure CommentsListArgs where
  commentable_id : Option Int := none
  commentable_type : Option String := none
  page : Option Int := none
  created_before : Option String := none
  created_after : Option String := none
deriving Repr

/-- `sdk_rfi.types.comments.CommentList`. -/
structure CommentList where
  comments : List Comment
  page : Int
  has_more : Bool
deriving DecidableEq, Repr

/-- The value Python binds to `Comments.list`'s `cutoff_date` parameter,
same definition-time default as `Questions.list`. -/
def commentsListCutoffBound (loadDate : String) (callDate : String) (cutoff_date : Option String) : String :=
  cutoff_date.getD loadDate

/-- The outbound `params` dict built by `Comments.list`, in source order;
the date bound is again sent unconditionally from the bound `cutoff_date`. -/
def commentsListParams (loadDate callDate : String) (a : CommentsListArgs)
    (cutoff_date : Option String) : Params :=
  let cutoff := commentsListCutoffBound loadDate callDate cutoff_date
  (match a.commentable_id with | some v => [("commentable_id", ParamValue.int v)] | none => []) ++
  (match a.commentable_type with | some v => [("commentable_type", ParamValue.str v)] | none => []) ++
  (match a.page with | some v => [("page", ParamValue.int v)] | none => []) ++
  (match a.created_before with
   | some v => [("created_before", ParamValue.str v)]
   | none => [("created_before", ParamValue.str (cutoff ++ "T23:59:59"))]) ++
  (match a.created_after with | some v => [("created_after", ParamValue.str v)] | none => [])

/-- `Comments.list` after the transport returned `data`. -/
def commentsListRun (loadDate callDate : String) (a : CommentsListArgs)
    (cutoff_date : Option String) (data : RawResponse Comment) :
    Except PyExn CommentList :=
  let cutoff := commentsListCutoffBound loadDate callDate cutoff_date
  let comments := extractRecords data "comments" "results" "data"
  let has_more := responseHasMore data comments.length
  match _filter_comments_by_cutoff comments cutoff with
  | .error e => .error e
  | .ok filtered => .ok ⟨filtered, pageOr1 a.page, has_more⟩

/-- Keyword arguments of `PredictionSets.list`; here the source's
`cutoff_date` parameter genuinely defaults to `None`. -/
structure PredictionSetsListArgs where
  question_id : Option Int := none
  membership_id : Option Int := none
  filter : Option String := none
  page : Option Int := none
  created_before : Option String := none
  created_after : Option String := none
  updated_before : Option String := none
  updated_after : Option String := none
  cutoff_date : Option String := none
deriving Repr

/-- `sdk_rfi.types.prediction_sets.PredictionSetList`. -/
structure PredictionSetList where
  prediction_sets : List PredictionSet
  page : Int
  has_more : Bool
deriving DecidableEq, Repr

/-- The outbound `params` dict built by `PredictionSets.list`, in source
order. This resource first runs
`cutoff_date = _resolve_cutoff_date(cutoff_date)` (env override wins), and
only synthesizes the date bound `elif cutoff_date:` — truthy resolved
cutoff. `env_cutoff` models `os.environ.get("CUTOFF_DATE")`. -/
def predictionSetsListParams (env_cutoff : Option String) (a : PredictionSetsListArgs) : Params :=
  let cutoff := _resolve_cutoff_date env_cutoff a.cutoff_date
  (match a.question_id with | some v => [("question_id", ParamValue.int v)] | none => []) ++
  (match a.membership_id with | some v => [("membership_id", ParamValue.int v)] | none => []) ++
  (match a.filter with | some v => [("filter", ParamValue.str v)] | none => []) ++
  (match a.page with | some v => [("page", ParamValue.int v)] | none => []) ++
  (match a.created_before with
   | some v => [("created_before", ParamValue.str v)]
   | none =>
     match cutoff with
     | some c => if !c.isEmpty then [("created_before", ParamValue.str (c ++ "T23:59:59"))] else []
     | none => []) ++
  (match a.created_after with | some v => [("created_after", ParamValue.str v)] | none => []) ++
  (match a.updated_before with | some v => [("updated_before", ParamValue.str v)] | none => []) ++
  (match a.updated_after with | some v => [("updated_after", ParamValue.str v)] | none => [])

/-- `PredictionSets.list` after the transport returned `data`: client-side
filtering happens only under `if cutoff_date:` with the resolved cutoff. -/
def predictionSetsListRun (env_cutoff : Option String) (a : PredictionSetsListArgs)
    (data : RawResponse PredictionSet) : Except PyExn PredictionSetList :=
  let cutoff := _resolve_cutoff_date env_cutoff a.cutoff_date
  let prediction_sets := extractRecords data "prediction_sets" "results" "data"
  let has_more := responseHasMore data prediction_sets.length
  match cutoff with
  | some c =>
    if !c.isEmpty then
      match _filter_prediction_sets_by_cutoff prediction_sets c with
      | .error e => .error e
      | .ok filtered => .ok ⟨filtered, pageOr1 a.page, has_more⟩
    else .ok ⟨prediction_sets, pageOr1 a.page, has_more⟩
  | none => .ok ⟨prediction_sets, pageOr1 a.page, has_more⟩

/-! ## Qualifying timestamps and retention -/

/-- The qualifying timestamp of a `Question`: `published_at` when present,
else `created_at` (the fallback chain of §3 of the design). -/
def qualifyingTimestampQuestion (q : Question) : Option PyDateTime :=
  match q.published_at with
  | some t => some t
  | none => q.created_at

/-- The qualifying timestamp of a `PredictionSet`: `created_at`. -/
def qualifyingTimestampPredictionSet (ps : PredictionSet) : Option PyDateTime :=
  ps.created_at

/-- The qualifying timestamp of a `Comment`: `created_at`. -/
def qualifyingTimestampComment (c : Comment) : Option PyDateTime :=
  c.created_at

/-- A question is retained by the temporal filter: the filter succeeds and
the question appears in its output. -/
def retainedQuestion (l : List Question) (c : String) (q : Question) : Prop :=
  ∃ out, _filter_questions_by_cutoff l c = .ok out ∧ q ∈ out

/-- A prediction set is retained by the temporal filter. -/
def retainedPredictionSet (l : List PredictionSet) (c : String) (ps : PredictionSet) : Prop :=
  ∃ out, _filter_prediction_sets_by_cutoff l c = .ok out ∧ ps ∈ out

/-- A comment is retained by the temporal filter. -/
def retainedComment (l : List Comment) (c : String) (cm : Comment) : Prop :=
  ∃ out, _filter_comments_by_cutoff l c = .ok out ∧ cm ∈ out

/-! ## Concrete fixtures (timestamps mirroring the repository's test data) -/

/-- `2024-01-01T12:00:00Z` as pydantic decodes it. -/
def tsOldPublished : PyDateTime := ⟨⟨2024, 1, 1, 12, 0, 0, 0⟩, some 0⟩

/-- `2024-01-01T08:00:00Z`. -/
def tsOldCreated : PyDateTime := ⟨⟨2024, 1, 1, 8, 0, 0, 0⟩, some 0⟩

/-- `2026-06-01T12:00:00Z`. -/
def tsFuturePublished : PyDateTime := ⟨⟨2026, 6, 1, 12, 0, 0, 0⟩, some 0⟩

/-- `2026-06-01T08:00:00Z`. -/
def tsFutureCreated : PyDateTime := ⟨⟨2026, 6, 1, 8, 0, 0, 0⟩, some 0⟩

/-- A question published well before any 2025 cutoff. -/
def oldQuestion : Question := ⟨1, "Old question", some tsOldCreated, some tsOldPublished⟩

/-- A question published after a 2025 cutoff. -/
def futureQuestion : Question := ⟨2, "Future question", some tsFutureCreated, some tsFuturePublished⟩

/-- A question carrying no timestamp at all. -/
def noTimestampQuestion : Question := ⟨3, "No dates", none, none⟩

/-- A prediction set created before any 2025 cutoff. -/
def oldPredictionSet : PredictionSet := ⟨1, some tsOldCreated⟩

/-- Midnight of 2025-01-01, the parse of the cutoff string used throughout
the repository's tests. -/
def cutoff20250101 : NaiveDT := ⟨2025, 1, 1, 0, 0, 0, 0⟩

/-! ## Helper lemmas -/

/-- On a well-formed cutoff the questions filter is a plain `List.filter`. -/
theorem filter_questions_ok (c : String) (cd : NaiveDT) (hc : strptimeDate c = some cd)
    (l : List Question) :
    _filter_questions_by_cutoff l c = .ok (l.filter (questionPasses cd)) := by
  unfold _filter_questions_by_cutoff
  rw [hc]

/-- On a well-formed cutoff the prediction-set filter is a plain `List.filter`. -/
theorem filter_prediction_sets_ok (c : String) (cd : NaiveDT) (hc : strptimeDate c = some cd)
    (l : List PredictionSet) :
    _filter_prediction_sets_by_cutoff l c = .ok (l.filter (predictionSetPasses (endOfDay cd))) := by
  unfold _filter_prediction_sets_by_cutoff
  rw [hc]

/-- On a well-formed cutoff the comments filter is a plain `List.filter`. -/
theorem filter_comments_ok (c : String) (cd : NaiveDT) (hc : strptimeDate c = some cd)
    (l : List Comment) :
    _filter_comments_by_cutoff l c = .ok (l.filter (commentPasses (endOfDay cd))) := by
  unfold _filter_comments_by_cutoff
  rw [hc]

/-- Membership characterization of question retention. -/
theorem retained_question_iff (c : String) (cd : NaiveDT) (hc : strptimeDate c = some cd)
    (l : List Question) (q : Question) :
    retainedQuestion l c q ↔ (q ∈ l ∧ questionPasses cd q = true) := by
  unfold retainedQuestion
  rw [filter_questions_ok c cd hc]
  simp [List.mem_filter]

/-- Membership characterization of prediction-set retention. -/
theorem retained_prediction_set_iff (c : String) (cd : NaiveDT) (hc : strptimeDate c = some cd)
    (l : List PredictionSet) (ps : PredictionSet) :
    retainedPredictionSet l c ps ↔ (ps ∈ l ∧ predictionSetPasses (endOfDay cd) ps = true) := by
  unfold retainedPredictionSet
  rw [filter_prediction_sets_ok c cd hc]
  simp [List.mem_filter]

/-- Membership characterization of comment retention. -/
theorem retained_comment_iff (c : String) (cd : NaiveDT) (hc : strptimeDate c = some cd)
    (l : List Comment) (cm : Comment) :
    retainedComment l c cm ↔ (cm ∈ l ∧ commentPasses (endOfDay cd) cm = true) := by
  unfold retainedComment
  rw [filter_comments_ok c cd hc]
  simp [List.mem_filter]

/-- The question predicate computes the cutoff test of the qualifying
timestamp, and `true` when there is none. -/
theorem question_passes_eq_qualifying (cd : NaiveDT) (q : Question) :
    questionPasses cd q =
      (match qualifyingTimestampQuestion q with
       | some t => NaiveDT.le (stripTzOffset t) (endOfDay cd)
       | none => true) := by
  unfold questionPasses qualifyingTimestampQuestion
  cases q.published_at with
  | some t => rfl
  | none => cases q.created_at with
    | some t => rfl
    | none => rfl

/-- Filtering with the same predicate twice equals filtering once. -/
theorem filter_self_idem {α : Type} (p : α → Bool) (l : List α) :
    (l.filter p).filter p = l.filter p := by
  induction l with
  | nil => rfl
  | cons a t ih =>
    by_cases h : p a = true <;> simp [List.filter_cons, h, ih]

/-! ## Claim theorems -/

/-- C1. The claim is violated by the code: a `Questions.list` or
`Comments.list` call with no `cutoff_date` argument and no environment
override still sends a `created_before` bound (synthesized from the
module-load-date default) and still filters the decoded response
client-side, so the result differs from the unfiltered decode; only
`PredictionSets.list` honors the no-op. Concretely, with module-load date
2025-06-01 and a response holding a question published 2026-06-01, the
outbound params carry `created_before=2025-06-01T23:59:59` and the future
question is dropped from the result. -/
theorem questions_comments_list_violate_forward_noop :
    questionsListParams "2025-06-01" "2025-06-01" {} none
      = [("created_before", ParamValue.str "2025-06-01T23:59:59")]
  ∧ commentsListParams "2025-06-01" "2025-06-01" {} none
      = [("created_before", ParamValue.str "2025-06-01T23:59:59")]
  ∧ extractRecords (RawResponse.list [oldQuestion, futureQuestion]) "questions" "results" "data"
      = [oldQuestion, futureQuestion]
  ∧ questionsListRun "2025-06-01" "2025-06-01" {} none (.list [oldQuestion, futureQuestion])
      = .ok ⟨[oldQuestion], 1, false⟩
  ∧ predictionSetsListParams none {} = [] :=
  ⟨rfl, rfl, rfl, rfl, rfl⟩

/-- C2. The claim is violated by the code: `Questions.list` (and
`Comments.list`) never invoke `_resolve_cutoff_date`, so the environment
override does not determine their cutoff. With override `2025-01-01` and
caller argument `2099-12-31`, the resolver yields `2025-01-01` and
`PredictionSets.list` sends that bound, but `Questions.list` sends the
caller's `2099-12-31` bound and its client-side filtering keeps a question
published 2026-06-01 (which the override cutoff would exclude). -/
theorem questions_list_ignores_cutoff_resolver :
    _resolve_cutoff_date (some "2025-01-01") (some "2099-12-31") = some "2025-01-01"
  ∧ paramsLookup "created_before"
      (predictionSetsListParams (some "2025-01-01") { cutoff_date := some "2099-12-31" })
      = some (ParamValue.str "2025-01-01T23:59:59")
  ∧ paramsLookup "created_before"
      (questionsListParams "2025-06-01" "2025-06-01" {} (some "2099-12-31"))
      = some (ParamValue.str "2099-12-31T23:59:59")
  ∧ questionsListRun "2025-06-01" "2025-06-01" {} (some "2099-12-31")
      (.list [oldQuestion, futureQuestion])
      = .ok ⟨[oldQuestion, futureQuestion], 1, false⟩ :=
  ⟨rfl, rfl, rfl, rfl⟩

/-- C3. Cutoff precedence of `_resolve_cutoff_date`: a set, non-empty
override wins unconditionally; else a set, non-empty parameter; else
absent — and an empty-string override behaves exactly like an absent one. -/
theorem resolve_cutoff_precedence (e p : Option String) :
    (optStrTruthy e = true → _resolve_cutoff_date e p = e)
  ∧ (optStrTruthy e = false → optStrTruthy p = true → _resolve_cutoff_date e p = p)
  ∧ (optStrTruthy e = false → optStrTruthy p = false → _resolve_cutoff_date e p = none)
  ∧ _resolve_cutoff_date (some "") p = _resolve_cutoff_date none p := by
  refine ⟨?_, ?_, ?_, ?_⟩
  · intro h
    simp [_resolve_cutoff_date, h]
  · intro h1 h2
    simp [_resolve_cutoff_date, h1, h2]
  · intro h1 h2
    simp [_resolve_cutoff_date, h1, h2]
  · have h1 : optStrTruthy (some "") = false := by decide
    have h2 : optStrTruthy (none : Option String) = false := rfl
    simp [_resolve_cutoff_date, h1, h2]

/-- Witness for C3 at the repository's own test vectors: override
`2024-06-15` beats parameter `2099-12-31`. -/
theorem resolve_cutoff_precedence_witness :
    _resolve_cutoff_date (some "2024-06-15") (some "2099-12-31") = some "2024-06-15" :=
  (resolve_cutoff_precedence (some "2024-06-15") (some "2099-12-31")).1 (by decide)

/-- C4. The claim is violated by the code: `Questions.get` never consults
the bound cutoff — it returns the decoded question unconditionally. With
cutoff `2025-01-01`, a question published `2026-06-01T12:00:00Z` fails the
cutoff check (its qualifying timestamp is after `2025-01-01 23:59:59`),
yet `get` returns it as if it existed. -/
theorem questions_get_ignores_cutoff :
    questionsGet "2025-06-01" "2025-06-01" (some "2025-01-01") futureQuestion = futureQuestion
  ∧ questionsGetCutoffBound "2025-06-01" "2025-06-01" (some "2025-01-01") = "2025-01-01"
  ∧ strptimeDate "2025-01-01" = some cutoff20250101
  ∧ qualifyingTimestampQuestion futureQuestion = some tsFuturePublished
  ∧ NaiveDT.le (stripTzOffset tsFuturePublished) (endOfDay cutoff20250101) = false
  ∧ questionPasses cutoff20250101 futureQuestion = false := by
  refine ⟨rfl, rfl, ?_, rfl, ?_, ?_⟩ <;> decide

/-- C5 counterexample. On the malformed cutoff `"not-a-date"` the filters
raise Python's builtin `ValueError` (from `datetime.strptime`), which is a
different exception class from a `ValidationError`; the SDK defines no
`ValidationError` and its filter helpers never raise one. -/
theorem malformed_cutoff_error_is_value_error :
    _filter_questions_by_cutoff [oldQuestion] "not-a-date" = .error PyExn.valueError
  ∧ _filter_prediction_sets_by_cutoff [oldPredictionSet] "not-a-date" = .error PyExn.valueError
  ∧ PyExn.valueError ≠ PyExn.validationError := by
  refine ⟨rfl, rfl, ?_⟩
  decide

/-- C5 as amended. For every entity sequence, applying the temporal filter
of any of the three resources with the malformed cutoff `"not-a-date"`
fails with a `ValueError` rather than returning the sequence unfiltered or
empty. -/
theorem malformed_cutoff_always_fails (l1 : List Question) (l2 : List PredictionSet)
    (l3 : List Comment) :
    _filter_questions_by_cutoff l1 "not-a-date" = .error PyExn.valueError
  ∧ _filter_prediction_sets_by_cutoff l2 "not-a-date" = .error PyExn.valueError
  ∧ _filter_comments_by_cutoff l3 "not-a-date" = .error PyExn.valueError := by
  have h : strptimeDate "not-a-date" = none := by decide
  refine ⟨?_, ?_, ?_⟩
  · unfold _filter_questions_by_cutoff
    rw [h]
  · unfold _filter_prediction_sets_by_cutoff
    rw [h]
  · unfold _filter_comments_by_cutoff
    rw [h]

/-- C6. For every entity that has a qualifying timestamp `t` and every
well-formed cutoff `c` (parse `cd`), each resource's temporal filter
retains the entity iff `t`, stripped of its timezone offset, is at most
the instant `c 23:59:59`, and hence excludes it iff that normalized
timestamp is later. -/
theorem temporal_filter_retention_iff (c : String) (cd : NaiveDT)
    (hc : strptimeDate c = some cd) :
    (∀ (l : List Question) (q : Question) (t : PyDateTime),
       qualifyingTimestampQuestion q = some t → q ∈ l →
       (retainedQuestion l c q ↔
         NaiveDT.le (stripTzOffset t) (endOfDay cd) = true))
  ∧ (∀ (l : List PredictionSet) (ps : PredictionSet) (t : PyDateTime),
       qualifyingTimestampPredictionSet ps = some t → ps ∈ l →
       (retainedPredictionSet l c ps ↔
         NaiveDT.le (stripTzOffset t) (endOfDay cd) = true))
  ∧ (∀ (l : List Comment) (cm : Comment) (t : PyDateTime),
       qualifyingTimestampComment cm = some t → cm ∈ l →
       (retainedComment l c cm ↔
         NaiveDT.le (stripTzOffset t) (endOfDay cd) = true)) := by
  refine ⟨?_, ?_, ?_⟩
  · intro l q t ht hq
    rw [retained_question_iff c cd hc]
    rw [question_passes_eq_qualifying cd q, ht]
    simp [hq]
  · intro l ps t ht hps
    rw [retained_prediction_set_iff c cd hc]
    unfold predictionSetPasses
    unfold qualifyingTimestampPredictionSet at ht
    rw [ht]
    simp [hps]
  · intro l cm t ht hcm
    rw [retained_comment_iff c cd hc]
    unfold commentPasses
    unfold qualifyingTimestampComment at ht
    rw [ht]
    simp [hcm]

/-- Witness for C6: with cutoff `2025-01-01`, the question published
`2024-01-01T12:00:00Z` is retained. -/
theorem temporal_filter_retention_iff_witness :
    retainedQuestion [oldQuestion] "2025-01-01" oldQuestion :=
  ((temporal_filter_retention_iff "2025-01-01" cutoff20250101 (by decide)).1
    [oldQuestion] oldQuestion tsOldPublished (by decide) (by simp)).mpr (by decide)

/-- C7. The qualifying timestamp the temporal filter tests is
`published_at` for a question when present, else `created_at`; `created_at`
for a prediction set or a comment; and an entity lacking every timestamp in
its chain is retained by the filter regardless of the (well-formed)
cutoff. -/
theorem qualifying_timestamp_chain (c : String) (cd : NaiveDT)
    (hc : strptimeDate c = some cd) :
    (∀ (q : Question) (t : PyDateTime), q.published_at = some t →
       qualifyingTimestampQuestion q = some t)
  ∧ (∀ q : Question, q.published_at = none →
       qualifyingTimestampQuestion q = q.created_at)
  ∧ (∀ ps : PredictionSet, qualifyingTimestampPredictionSet ps = ps.created_at)
  ∧ (∀ cm : Comment, qualifyingTimestampComment cm = cm.created_at)
  ∧ (∀ q : Question, questionPasses cd q =
       (match qualifyingTimestampQuestion q with
        | some t => NaiveDT.le (stripTzOffset t) (endOfDay cd)
        | none => true))
  ∧ (∀ (l : List Question) (q : Question),
       qualifyingTimestampQuestion q = none → q ∈ l → retainedQuestion l c q)
  ∧ (∀ (l : List PredictionSet) (ps : PredictionSet),
       qualifyingTimestampPredictionSet ps = none → ps ∈ l → retainedPredictionSet l c ps)
  ∧ (∀ (l : List Comment) (cm : Comment),
       qualifyingTimestampComment cm = none → cm ∈ l → retainedComment l c cm) := by
  refine ⟨?_, ?_, ?_, ?_, ?_, ?_, ?_, ?_⟩
  · intro q t ht
    unfold qualifyingTimestampQuestion
    rw [ht]
  · intro q hq
    unfold qualifyingTimestampQuestion
    rw [hq]
  · intro ps
    rfl
  · intro cm
    rfl
  · intro q
    exact question_passes_eq_qualifying cd q
  · intro l q ht hq
    rw [retained_question_iff c cd hc]
    refine ⟨hq, ?_⟩
    rw [question_passes_eq_qualifying cd q, ht]
  · intro l ps ht hps
    rw [retained_prediction_set_iff c cd hc]
    refine ⟨hps, ?_⟩
    unfold predictionSetPasses
    unfold qualifyingTimestampPredictionSet at ht
    rw [ht]
  · intro l cm ht hcm
    rw [retained_comment_iff c cd hc]
    refine ⟨hcm, ?_⟩
    unfold commentPasses
    unfold qualifyingTimestampComment at ht
    rw [ht]

/-- Witness for C7: a question with neither `published_at` nor `created_at`
is retained under cutoff `2025-01-01`. -/
theorem qualifying_timestamp_chain_witness :
    retainedQuestion [noTimestampQuestion] "2025-01-01" noTimestampQuestion :=
  (qualifying_timestamp_chain "2025-01-01" cutoff20250101 (by decide)).2.2.2.2.2.1
    [noTimestampQuestion] noTimestampQuestion (by decide) (by simp)

/-- A present key returns its value from `dict.get`. -/
theorem dictGet_cons_self {α : Type} (k : String) (v : DVal α) (rest : List (String × DVal α)) :
    dictGet ((k, v) :: rest) k = some v := by
  simp [dictGet]

/-- Key-chain extraction from an object whose resource key carries the
records yields exactly those records. -/
theorem extractDictItems_single {α : Type} (k1 k2 k3 : String) (xs : List α) :
    extractDictItems [(k1, DVal.arr xs)] k1 k2 k3 = xs := by
  unfold extractDictItems
  rw [dictGet_cons_self]

/-- Normalizing an object envelope whose resource key carries the records
yields exactly those records. -/
theorem extract_dict_single {α : Type} (k1 k2 k3 : String) (xs : List α) :
    extractRecords (RawResponse.dict [(k1, DVal.arr xs)]) k1 k2 k3 = xs := by
  simp [extractRecords, extractDictItems_single]

/-- C8. For every record list, a bare-sequence response and an
object-enveloped response carrying the same records under the resource's
key decode to identical entity sequences in the result of `list`, for all
three resources (only the `has_more` heuristic may differ). -/
theorem envelope_normalization_equiv :
    (∀ (loadDate callDate : String) (a : QuestionsListArgs) (cutoff : Option String)
       (xs : List Question),
       Except.map QuestionList.questions
           (questionsListRun loadDate callDate a cutoff (.list xs))
         = Except.map QuestionList.questions
             (questionsListRun loadDate callDate a cutoff (.dict [("questions", DVal.arr xs)])))
  ∧ (∀ (env_cutoff : Option String) (a : PredictionSetsListArgs) (xs : List PredictionSet),
       Except.map PredictionSetList.prediction_sets
           (predictionSetsListRun env_cutoff a (.list xs))
         = Except.map PredictionSetList.prediction_sets
             (predictionSetsListRun env_cutoff a (.dict [("prediction_sets", DVal.arr xs)])))
  ∧ (∀ (loadDate callDate : String) (a : CommentsListArgs) (cutoff : Option String)
       (xs : List Comment),
       Except.map CommentList.comments
           (commentsListRun loadDate callDate a cutoff (.list xs))
         = Except.map CommentList.comments
             (commentsListRun loadDate callDate a cutoff (.dict [("comments", DVal.arr xs)]))) := by
  refine ⟨?_, ?_, ?_⟩
  · intro loadDate callDate a cutoff xs
    simp only [questionsListRun, extractRecords, extractDictItems_single]
    cases h : _filter_questions_by_cutoff xs (questionsListCutoffBound loadDate callDate cutoff) <;>
      simp [h, Except.map]
  · intro env_cutoff a xs
    simp only [predictionSetsListRun, extractRecords, extractDictItems_single]
    cases hr : _resolve_cutoff_date env_cutoff a.cutoff_date with
    | none => simp [Except.map]
    | some c =>
      by_cases hce : c.isEmpty
      · simp [hce, Except.map]
      · cases h : _filter_prediction_sets_by_cutoff xs c <;> simp [hce, h, Except.map]
  · intro loadDate callDate a cutoff xs
    simp only [commentsListRun, extractRecords, extractDictItems_single]
    cases h : _filter_comments_by_cutoff xs (commentsListCutoffBound loadDate callDate cutoff) <;>
      simp [h, Except.map]

/-- C9. Applying a resource's temporal filter twice with the same cutoff
equals applying it once, for every cutoff string (on malformed cutoffs both
sides fail identically; on well-formed ones the filter is a pure
predicate). -/
theorem temporal_filter_idempotent :
    (∀ (c : String) (l : List Question),
       Except.bind (_filter_questions_by_cutoff l c)
           (fun l2 => _filter_questions_by_cutoff l2 c)
         = _filter_questions_by_cutoff l c)
  ∧ (∀ (c : String) (l : List PredictionSet),
       Except.bind (_filter_prediction_sets_by_cutoff l c)
           (fun l2 => _filter_prediction_sets_by_cutoff l2 c)
         = _filter_prediction_sets_by_cutoff l c)
  ∧ (∀ (c : String) (l : List Comment),
       Except.bind (_filter_comments_by_cutoff l c)
           (fun l2 => _filter_comments_by_cutoff l2 c)
         = _filter_comments_by_cutoff l c) := by
  refine ⟨?_, ?_, ?_⟩
  · intro c l
    cases hc : strptimeDate c with
    | none =>
      unfold _filter_questions_by_cutoff
      rw [hc]
      rfl
    | some cd =>
      rw [filter_questions_ok c cd hc]
      show _filter_questions_by_cutoff (l.filter (questionPasses cd)) c
        = Except.ok (l.filter (questionPasses cd))
      rw [filter_questions_ok c cd hc, filter_self_idem]
  · intro c l
    cases hc : strptimeDate c with
    | none =>
      unfold _filter_prediction_sets_by_cutoff
      rw [hc]
      rfl
    | some cd =>
      rw [filter_prediction_sets_ok c cd hc]
      show _filter_prediction_sets_by_cutoff (l.filter (predictionSetPasses (endOfDay cd))) c
        = Except.ok (l.filter (predictionSetPasses (endOfDay cd)))
      rw [filter_prediction_sets_ok c cd hc, filter_self_idem]
  · intro c l
    cases hc : strptimeDate c with
    | none =>
      unfold _filter_comments_by_cutoff
      rw [hc]
      rfl
    | some cd =>
      rw [filter_comments_ok c cd hc]
      show _filter_comments_by_cutoff (l.filter (commentPasses (endOfDay cd))) c
        = Except.ok (l.filter (commentPasses (endOfDay cd)))
      rw [filter_comments_ok c cd hc, filter_self_idem]

/-- C10. The `cutoff_date` default of `Questions.list`, `Questions.get` and
`Comments.list` is the single date string evaluated once at module import
(`loadDate`); a call omitting the argument binds that same string no matter
on which day (`d1`, `d2`) the call happens, and the synthesized
`created_before` bound comes from it. -/
theorem default_cutoff_fixed_at_module_load (loadDate d1 d2 : String) :
    questionsListCutoffBound loadDate d1 none = loadDate
  ∧ questionsListCutoffBound loadDate d1 none = questionsListCutoffBound loadDate d2 none
  ∧ questionsGetCutoffBound loadDate d1 none = loadDate
  ∧ questionsGetCutoffBound loadDate d1 none = questionsGetCutoffBound loadDate d2 none
  ∧ commentsListCutoffBound loadDate d1 none = loadDate
  ∧ commentsListCutoffBound loadDate d1 none = commentsListCutoffBound loadDate d2 none
  ∧ paramsLookup "created_before" (questionsListParams loadDate d1 {} none)
      = some (ParamValue.str (loadDate ++ "T23:59:59"))
  ∧ paramsLookup "created_before" (commentsListParams loadDate d1 {} none)
      = some (ParamValue.str (loadDate ++ "T23:59:59")) :=
  ⟨rfl, rfl, rfl, rfl, rfl, rfl, rfl, rfl⟩
